import Mathlib

/-!
Verification of `prototypes/fastsam-onnx-test/models/export_model.py`.

The script is a straight-line driver with one binary branch: it changes the
working directory, checks whether a checkpoint file exists, loads the model
either from the resolved path or by symbolic identifier (which downloads it),
then exports the loaded model with a fixed configuration and prints the result.

We embed the script as a pure function from an environment (the filesystem
existence oracle together with the two fallible external capabilities: model
loading and model export) to the trace of observable events it performs and
its final outcome.  Every call into the outside world (chdir, the existence
check, each print, the load call, the export call) is recorded as an event,
in program order.
-/

namespace ExportModel

/-- The working directory the script switches to at line 2 of
`export_model.py`. -/
def workDir : String :=
  "/Users/jason/Desktop/Work/StraboMicro2/prototypes/fastsam-onnx-test/models"

/-- The hardcoded checkpoint path (`model_path` at line 8). -/
def model_path : String :=
  "/Users/jason/Desktop/Work/StraboMicro2/prototypes/fastsam-onnx-test/models/FastSAM-x.pt"

/-- The symbolic model identifier passed to the loader on the download
branch (line 14). -/
def modelIdent : String := "FastSAM-x.pt"

/-- The keyword-argument record passed to `model.export` (lines 23-29). -/
structure ExportConfig where
  format : String
  imgsz : Nat
  opset : Nat
  simplify : Bool
  dynamic : Bool
  deriving DecidableEq, Repr

/-- The one configuration the script ever passes to the export capability. -/
def fixedConfig : ExportConfig :=
  { format := "onnx", imgsz := 1024, opset := 17,
    simplify := false, dynamic := false }

/-- An opaque model handle; `typeName` stands for what Python renders for
`type(model)` in the diagnostic line at line 18. -/
structure ModelHandle where
  typeName : String
  deriving DecidableEq, Repr

/-- The argument given to the external loading capability: either a resolved
filesystem path (line 17) or a symbolic identifier (line 14). -/
inductive LoadArg where
  | byPath (path : String)
  | byIdent (ident : String)
  deriving DecidableEq, Repr

/-- Observable events of one run, in program order. -/
inductive Event where
  | chdir (dir : String)
  | checkExists (path : String) (found : Bool)
  | printLine (line : String)
  | loadCall (arg : LoadArg)
  | exportCall (cfg : ExportConfig)
  deriving DecidableEq, Repr

/-- The external world the script runs against: the filesystem existence
oracle and the two fallible library capabilities (loading and exporting).
An `Except.error` models the library raising an exception. -/
structure Env where
  pathExists : String → Bool
  load : LoadArg → Except String ModelHandle
  exportModel : ModelHandle → ExportConfig → Except String String

/-- The part of the script after a successful load (lines 18..31): print the
loaded-model line, make the single export call, and on success print the
completion line.  `t` is the trace accumulated so far. -/
def afterLoad (env : Env) (m : ModelHandle) (t : List Event) :
    List Event × Except String Unit :=
  let t2 := t ++ [Event.printLine ("Loaded model: " ++ m.typeName),
                  Event.exportCall fixedConfig]
  match env.exportModel m fixedConfig with
  | Except.error e => (t2, Except.error e)
  | Except.ok r =>
      (t2 ++ [Event.printLine ("Export complete! Result: " ++ r)],
       Except.ok ())

/-- One run of `export_model.py`: chdir, existence check, the binary branch
(download by identifier vs. load by path), then `afterLoad`.  An error from
either external capability aborts the run at that point, mirroring an
uncaught Python exception. -/
def runScript (env : Env) : List Event × Except String Unit :=
  let found := env.pathExists model_path
  let t0 := [Event.chdir workDir, Event.checkExists model_path found]
  if !found then
    let t1 := t0 ++ [Event.printLine ("Model not found at " ++ model_path),
                     Event.printLine ("Downloading " ++ modelIdent ++ "..."),
                     Event.loadCall (LoadArg.byIdent modelIdent)]
    match env.load (LoadArg.byIdent modelIdent) with
    | Except.error e => (t1, Except.error e)
    | Except.ok m => afterLoad env m t1
  else
    let t1 := t0 ++ [Event.printLine ("Loading model from: " ++ model_path),
                     Event.loadCall (LoadArg.byPath model_path)]
    match env.load (LoadArg.byPath model_path) with
    | Except.error e => (t1, Except.error e)
    | Except.ok m => afterLoad env m t1

/-- The load argument the run uses, determined solely by the existence
check. -/
def loadArgOf (env : Env) : LoadArg :=
  if env.pathExists model_path then LoadArg.byPath model_path
  else LoadArg.byIdent modelIdent

/-- Is this event the export call? -/
def Event.isExportCall : Event → Bool
  | Event.exportCall _ => true
  | _ => false

/-- Is this event a change of working directory? -/
def Event.isChdir : Event → Bool
  | Event.chdir _ => true
  | _ => false

/-- The diagnostic lines of a trace, in order. -/
def printedLines (t : List Event) : List String :=
  t.filterMap (fun e => match e with
    | Event.printLine s => some s
    | _ => none)

/-- The load calls of a trace, in order. -/
def loadCalls (t : List Event) : List LoadArg :=
  t.filterMap (fun e => match e with
    | Event.loadCall a => some a
    | _ => none)

/-- The number of export calls in a trace. -/
def countExportCalls (t : List Event) : Nat :=
  (t.filter Event.isExportCall).length

/-- A fixed concrete model handle for the sample environments. -/
def okHandle : ModelHandle := { typeName := "FastSAM" }

/-- A load capability that always succeeds with a fixed handle. -/
def okLoad : LoadArg → Except String ModelHandle :=
  fun _ => Except.ok okHandle

/-- An export capability that always succeeds. -/
def okExport : ModelHandle → ExportConfig → Except String String :=
  fun _ _ => Except.ok "FastSAM-x.onnx"

/-- A concrete environment where the checkpoint file exists and both
capabilities succeed. -/
def envTrue : Env :=
  { pathExists := fun p => p == model_path,
    load := okLoad,
    exportModel := okExport }

/-- A second concrete environment agreeing with `envTrue` on the checkpoint
path but differing elsewhere. -/
def envTrue2 : Env :=
  { pathExists := fun _ => true,
    load := okLoad,
    exportModel := okExport }

/-- A concrete environment where the checkpoint file is absent and both
capabilities succeed. -/
def envFalse : Env :=
  { pathExists := fun _ => false,
    load := okLoad,
    exportModel := okExport }

/-- A concrete environment where the load capability raises. -/
def envLoadFails : Env :=
  { pathExists := fun _ => true,
    load := fun _ => Except.error "network failure",
    exportModel := okExport }

/-- A concrete environment where the load succeeds but the export capability
raises. -/
def envExportFails : Env :=
  { pathExists := fun _ => true,
    load := okLoad,
    exportModel := fun _ _ => Except.error "unsupported op" }

/-! ### Trace characterization helpers

One lemma per combination of branch (checkpoint present / absent) and
external outcome (load fails / export fails / both succeed), each giving the
full trace and result of the run. -/

theorem runScript_found_loadFail (env : Env) (e : String)
    (hex : env.pathExists model_path = true)
    (hl : env.load (LoadArg.byPath model_path) = Except.error e) :
    runScript env =
      ([Event.chdir workDir, Event.checkExists model_path true,
        Event.printLine ("Loading model from: " ++ model_path),
        Event.loadCall (LoadArg.byPath model_path)],
       Except.error e) := by
  simp [runScript, hex, hl]

theorem runScript_found_exportFail (env : Env) (m : ModelHandle) (e : String)
    (hex : env.pathExists model_path = true)
    (hl : env.load (LoadArg.byPath model_path) = Except.ok m)
    (hm : env.exportModel m fixedConfig = Except.error e) :
    runScript env =
      ([Event.chdir workDir, Event.checkExists model_path true,
        Event.printLine ("Loading model from: " ++ model_path),
        Event.loadCall (LoadArg.byPath model_path),
        Event.printLine ("Loaded model: " ++ m.typeName),
        Event.exportCall fixedConfig],
       Except.error e) := by
  simp [runScript, afterLoad, hex, hl, hm]

theorem runScript_found_ok (env : Env) (m : ModelHandle) (r : String)
    (hex : env.pathExists model_path = true)
    (hl : env.load (LoadArg.byPath model_path) = Except.ok m)
    (hm : env.exportModel m fixedConfig = Except.ok r) :
    runScript env =
      ([Event.chdir workDir, Event.checkExists model_path true,
        Event.printLine ("Loading model from: " ++ model_path),
        Event.loadCall (LoadArg.byPath model_path),
        Event.printLine ("Loaded model: " ++ m.typeName),
        Event.exportCall fixedConfig,
        Event.printLine ("Export complete! Result: " ++ r)],
       Except.ok ()) := by
  simp [runScript, afterLoad, hex, hl, hm]

theorem runScript_missing_loadFail (env : Env) (e : String)
    (hex : env.pathExists model_path = false)
    (hl : env.load (LoadArg.byIdent modelIdent) = Except.error e) :
    runScript env =
      ([Event.chdir workDir, Event.checkExists model_path false,
        Event.printLine ("Model not found at " ++ model_path),
        Event.printLine ("Downloading " ++ modelIdent ++ "..."),
        Event.loadCall (LoadArg.byIdent modelIdent)],
       Except.error e) := by
  simp [runScript, hex, hl]

theorem runScript_missing_exportFail (env : Env) (m : ModelHandle) (e : String)
    (hex : env.pathExists model_path = false)
    (hl : env.load (LoadArg.byIdent modelIdent) = Except.ok m)
    (hm : env.exportModel m fixedConfig = Except.error e) :
    runScript env =
      ([Event.chdir workDir, Event.checkExists model_path false,
        Event.printLine ("Model not found at " ++ model_path),
        Event.printLine ("Downloading " ++ modelIdent ++ "..."),
        Event.loadCall (LoadArg.byIdent modelIdent),
        Event.printLine ("Loaded model: " ++ m.typeName),
        Event.exportCall fixedConfig],
       Except.error e) := by
  simp [runScript, afterLoad, hex, hl, hm]

theorem runScript_missing_ok (env : Env) (m : ModelHandle) (r : String)
    (hex : env.pathExists model_path = false)
    (hl : env.load (LoadArg.byIdent modelIdent) = Except.ok m)
    (hm : env.exportModel m fixedConfig = Except.ok r) :
    runScript env =
      ([Event.chdir workDir, Event.checkExists model_path false,
        Event.printLine ("Model not found at " ++ model_path),
        Event.printLine ("Downloading " ++ modelIdent ++ "..."),
        Event.loadCall (LoadArg.byIdent modelIdent),
        Event.printLine ("Loaded model: " ++ m.typeName),
        Event.exportCall fixedConfig,
        Event.printLine ("Export complete! Result: " ++ r)],
       Except.ok ()) := by
  simp [runScript, afterLoad, hex, hl, hm]

/-- C1: for every run, regardless of whether the checkpoint path exists,
any configuration record passed to the external export capability equals
exactly `{format := "onnx", imgsz := 1024, opset := 17, simplify := false,
dynamic := false}`. -/
theorem export_config_fixed (env : Env) (cfg : ExportConfig)
    (h : Event.exportCall cfg ∈ (runScript env).1) : cfg = fixedConfig := by
  unfold runScript at h
  cases hex : env.pathExists model_path <;> simp [hex] at h
  · cases hl : env.load (LoadArg.byIdent modelIdent) with
    | error e => simp [hl] at h
    | ok m =>
        simp [hl, afterLoad] at h
        cases hm : env.exportModel m fixedConfig with
        | error e => simp [hm] at h; exact h
        | ok r => simp [hm] at h; exact h
  · cases hl : env.load (LoadArg.byPath model_path) with
    | error e => simp [hl] at h
    | ok m =>
        simp [hl, afterLoad] at h
        cases hm : env.exportModel m fixedConfig with
        | error e => simp [hm] at h; exact h
        | ok r => simp [hm] at h; exact h

/-- Witness for C1 at the concrete environment `envTrue`. -/
theorem export_config_fixed_witness : fixedConfig = fixedConfig :=
  export_config_fixed envTrue fixedConfig (by decide)

/-- Helper: with the checkpoint present, the only load call of the run is
the load-by-path call. -/
theorem loadCalls_of_found (env : Env)
    (hex : env.pathExists model_path = true) :
    loadCalls (runScript env).1 = [LoadArg.byPath model_path] := by
  cases hl : env.load (LoadArg.byPath model_path) with
  | error e => rw [runScript_found_loadFail env e hex hl]; rfl
  | ok m =>
      cases hm : env.exportModel m fixedConfig with
      | error e => rw [runScript_found_exportFail env m e hex hl hm]; rfl
      | ok r => rw [runScript_found_ok env m r hex hl hm]; rfl

/-- C2: for every environment in which the checkpoint path exists, the run
invokes the external loading capability exactly once, with the resolved path
itself; the load-by-identifier/download branch is never taken. -/
theorem found_loads_by_path (env : Env)
    (hex : env.pathExists model_path = true) :
    loadCalls (runScript env).1 = [LoadArg.byPath model_path] :=
  loadCalls_of_found env hex

/-- Witness for C2 at the concrete environment `envTrue`. -/
theorem found_loads_by_path_witness :
    loadCalls (runScript envTrue).1 = [LoadArg.byPath model_path] :=
  found_loads_by_path envTrue (by decide)

/-- C3: for every environment in which the checkpoint path does not exist,
the run invokes the external loading capability exactly once, with the
symbolic model identifier (not a path), taking the download branch. -/
theorem missing_loads_by_ident (env : Env)
    (hex : env.pathExists model_path = false) :
    loadCalls (runScript env).1 = [LoadArg.byIdent modelIdent] := by
  cases hl : env.load (LoadArg.byIdent modelIdent) with
  | error e => rw [runScript_missing_loadFail env e hex hl]; rfl
  | ok m =>
      cases hm : env.exportModel m fixedConfig with
      | error e => rw [runScript_missing_exportFail env m e hex hl hm]; rfl
      | ok r => rw [runScript_missing_ok env m r hex hl hm]; rfl

/-- Witness for C3 at the concrete environment `envFalse`. -/
theorem missing_loads_by_ident_witness :
    loadCalls (runScript envFalse).1 = [LoadArg.byIdent modelIdent] :=
  missing_loads_by_ident envFalse (by decide)

/-- C4: when the checkpoint path exists and the load succeeds, the
diagnostic lines emitted before the export call are exactly
`Loading model from: <path>` then `Loaded model: <handle-type>`, in that
order, and the export call does occur in the run. -/
theorem found_two_lines_before_export (env : Env) (m : ModelHandle)
    (hex : env.pathExists model_path = true)
    (hl : env.load (LoadArg.byPath model_path) = Except.ok m) :
    printedLines (((runScript env).1).takeWhile
        (fun e => ! e.isExportCall)) =
      ["Loading model from: " ++ model_path,
       "Loaded model: " ++ m.typeName] ∧
    Event.exportCall fixedConfig ∈ (runScript env).1 := by
  cases hm : env.exportModel m fixedConfig with
  | error e =>
      rw [runScript_found_exportFail env m e hex hl hm]
      exact ⟨rfl, by simp⟩
  | ok r =>
      rw [runScript_found_ok env m r hex hl hm]
      exact ⟨rfl, by simp⟩

/-- Witness for C4 at the concrete environment `envTrue`. -/
theorem found_two_lines_before_export_witness :
    printedLines (((runScript envTrue).1).takeWhile
        (fun e => ! e.isExportCall)) =
      ["Loading model from: " ++ model_path,
       "Loaded model: " ++ okHandle.typeName] ∧
    Event.exportCall fixedConfig ∈ (runScript envTrue).1 :=
  found_two_lines_before_export envTrue okHandle (by decide) rfl

/-- C5: when the checkpoint path does not exist and the load succeeds, the
run starts with the lines `Model not found at <path>` and
`Downloading <identifier>...`, then the load-by-identifier call, then the
`Loaded model: <handle-type>` line. -/
theorem missing_diag_sequence (env : Env) (m : ModelHandle)
    (hex : env.pathExists model_path = false)
    (hl : env.load (LoadArg.byIdent modelIdent) = Except.ok m) :
    ((runScript env).1).take 6 =
      [Event.chdir workDir,
       Event.checkExists model_path false,
       Event.printLine ("Model not found at " ++ model_path),
       Event.printLine ("Downloading " ++ modelIdent ++ "..."),
       Event.loadCall (LoadArg.byIdent modelIdent),
       Event.printLine ("Loaded model: " ++ m.typeName)] := by
  cases hm : env.exportModel m fixedConfig with
  | error e => rw [runScript_missing_exportFail env m e hex hl hm]; rfl
  | ok r => rw [runScript_missing_ok env m r hex hl hm]; rfl

/-- Witness for C5 at the concrete environment `envFalse`. -/
theorem missing_diag_sequence_witness :
    ((runScript envFalse).1).take 6 =
      [Event.chdir workDir,
       Event.checkExists model_path false,
       Event.printLine ("Model not found at " ++ model_path),
       Event.printLine ("Downloading " ++ modelIdent ++ "..."),
       Event.loadCall (LoadArg.byIdent modelIdent),
       Event.printLine ("Loaded model: " ++ okHandle.typeName)] :=
  missing_diag_sequence envFalse okHandle (by decide) rfl

/-- C6 counterexample: in the concrete environment `envExportFails` the load
succeeds and exactly one export call occurs, yet the run prints no
`Export complete! Result: <result>` line at all — its diagnostic lines are
exactly the two pre-export ones. -/
theorem export_once_counterexample :
    envExportFails.load (loadArgOf envExportFails) = Except.ok okHandle ∧
    countExportCalls (runScript envExportFails).1 = 1 ∧
    printedLines (runScript envExportFails).1 =
      ["Loading model from: " ++ model_path,
       "Loaded model: " ++ okHandle.typeName] :=
  ⟨rfl, rfl, rfl⟩

/-- C6 (amended): after any successful load, exactly one export call occurs;
exactly one `Export complete! Result: <result>` line follows it when the
export call itself also succeeds, and none when the export call fails. -/
theorem export_once_after_load (env : Env) (m : ModelHandle)
    (hl : env.load (loadArgOf env) = Except.ok m) :
    countExportCalls (runScript env).1 = 1 ∧
    (∀ r, env.exportModel m fixedConfig = Except.ok r →
      printedLines (((runScript env).1).dropWhile
          (fun ev => ! ev.isExportCall)) =
        ["Export complete! Result: " ++ r]) ∧
    (∀ e, env.exportModel m fixedConfig = Except.error e →
      printedLines (((runScript env).1).dropWhile
          (fun ev => ! ev.isExportCall)) = []) := by
  cases hexi : env.pathExists model_path <;> simp [loadArgOf, hexi] at hl
  · cases hm : env.exportModel m fixedConfig with
    | error e =>
        rw [runScript_missing_exportFail env m e hexi hl hm]
        refine ⟨rfl, ?_, ?_⟩
        · intro r hr; cases hr
        · intro e2 he2; rfl
    | ok r =>
        rw [runScript_missing_ok env m r hexi hl hm]
        refine ⟨rfl, ?_, ?_⟩
        · intro r2 hr; injection hr with h; subst h; rfl
        · intro e2 he2; cases he2
  · cases hm : env.exportModel m fixedConfig with
    | error e =>
        rw [runScript_found_exportFail env m e hexi hl hm]
        refine ⟨rfl, ?_, ?_⟩
        · intro r hr; cases hr
        · intro e2 he2; rfl
    | ok r =>
        rw [runScript_found_ok env m r hexi hl hm]
        refine ⟨rfl, ?_, ?_⟩
        · intro r2 hr; injection hr with h; subst h; rfl
        · intro e2 he2; cases he2

/-- Witness for the amended C6 at the concrete environment `envTrue`. -/
theorem export_once_after_load_witness :
    countExportCalls (runScript envTrue).1 = 1 ∧
    (∀ r, envTrue.exportModel okHandle fixedConfig = Except.ok r →
      printedLines (((runScript envTrue).1).dropWhile
          (fun ev => ! ev.isExportCall)) =
        ["Export complete! Result: " ++ r]) ∧
    (∀ e, envTrue.exportModel okHandle fixedConfig = Except.error e →
      printedLines (((runScript envTrue).1).dropWhile
          (fun ev => ! ev.isExportCall)) = []) :=
  export_once_after_load envTrue okHandle rfl

/-- C7 counterexample: in the concrete environment `envTrue` the checkpoint
path exists, the run completes successfully, and only three diagnostic lines
are printed, not four. -/
theorem four_lines_counterexample :
    envTrue.pathExists model_path = true ∧
    (runScript envTrue).2 = Except.ok () ∧
    (printedLines (runScript envTrue).1).length = 3 :=
  ⟨by decide, rfl, rfl⟩

/-- C7 (amended): a run that completes successfully prints exactly three
diagnostic lines when the checkpoint path exists (path status and load
intent share one line) and exactly four when it does not. -/
theorem line_count_by_branch (env : Env)
    (hok : (runScript env).2 = Except.ok ()) :
    (printedLines (runScript env).1).length =
      (if env.pathExists model_path then 3 else 4) := by
  cases hexi : env.pathExists model_path with
  | false =>
      cases hl : env.load (LoadArg.byIdent modelIdent) with
      | error e =>
          rw [runScript_missing_loadFail env e hexi hl] at hok
          cases hok
      | ok m =>
          cases hm : env.exportModel m fixedConfig with
          | error e =>
              rw [runScript_missing_exportFail env m e hexi hl hm] at hok
              cases hok
          | ok r =>
              rw [runScript_missing_ok env m r hexi hl hm]
              rfl
  | true =>
      cases hl : env.load (LoadArg.byPath model_path) with
      | error e =>
          rw [runScript_found_loadFail env e hexi hl] at hok
          cases hok
      | ok m =>
          cases hm : env.exportModel m fixedConfig with
          | error e =>
              rw [runScript_found_exportFail env m e hexi hl hm] at hok
              cases hok
          | ok r =>
              rw [runScript_found_ok env m r hexi hl hm]
              rfl

/-- Witness for the amended C7 at the concrete environment `envFalse`. -/
theorem line_count_by_branch_witness :
    (printedLines (runScript envFalse).1).length =
      (if envFalse.pathExists model_path then 3 else 4) :=
  line_count_by_branch envFalse rfl

/-- C8: the script handles no errors itself: when the load capability fails
the error value propagates unmodified as the run outcome, the export call is
never reached, and the trace ends at the load call with no further
diagnostic line; when the export capability fails, its error value likewise
propagates unmodified. -/
theorem no_local_error_handling (env : Env) (e : String) :
    (env.load (loadArgOf env) = Except.error e →
      (runScript env).2 = Except.error e ∧
      countExportCalls (runScript env).1 = 0 ∧
      ((runScript env).1).getLast? = some (Event.loadCall (loadArgOf env))) ∧
    (∀ m, env.load (loadArgOf env) = Except.ok m →
      env.exportModel m fixedConfig = Except.error e →
      (runScript env).2 = Except.error e) := by
  constructor
  · intro hl
    cases hexi : env.pathExists model_path with
    | false =>
        simp only [loadArgOf, hexi] at hl ⊢
        simp only [Bool.false_eq_true, if_false] at hl ⊢
        rw [runScript_missing_loadFail env e hexi hl]
        exact ⟨rfl, rfl, rfl⟩
    | true =>
        simp only [loadArgOf, hexi, if_true] at hl ⊢
        rw [runScript_found_loadFail env e hexi hl]
        exact ⟨rfl, rfl, rfl⟩
  · intro m hl hm
    cases hexi : env.pathExists model_path <;>
      simp [loadArgOf, hexi] at hl
    · rw [runScript_missing_exportFail env m e hexi hl hm]
    · rw [runScript_found_exportFail env m e hexi hl hm]

/-- Witness for C8 at the concrete environment `envLoadFails`. -/
theorem no_local_error_handling_witness :
    (runScript envLoadFails).2 = Except.error "network failure" ∧
    countExportCalls (runScript envLoadFails).1 = 0 := by
  have h := (no_local_error_handling envLoadFails "network failure").1 rfl
  exact ⟨h.1, h.2.1⟩

/-- C9: the branch decision depends only on the current existence check and
the external capabilities, with no state carried over from a prior run: two
runs whose existence check both report the checkpoint present and whose
external capabilities agree behave identically, and both take the
load-by-path branch. -/
theorem rerun_same_behavior (env1 env2 : Env)
    (h1 : env1.pathExists model_path = true)
    (h2 : env2.pathExists model_path = true)
    (hl : env1.load = env2.load)
    (he : env1.exportModel = env2.exportModel) :
    runScript env1 = runScript env2 ∧
    loadCalls (runScript env1).1 = [LoadArg.byPath model_path] := by
  refine ⟨?_, loadCalls_of_found env1 h1⟩
  cases hload : env1.load (LoadArg.byPath model_path) with
  | error e =>
      have hload2 : env2.load (LoadArg.byPath model_path) =
          Except.error e := by rw [← hl]; exact hload
      rw [runScript_found_loadFail env1 e h1 hload,
          runScript_found_loadFail env2 e h2 hload2]
  | ok m =>
      cases hm : env1.exportModel m fixedConfig with
      | error e =>
          have hload2 : env2.load (LoadArg.byPath model_path) =
              Except.ok m := by rw [← hl]; exact hload
          have hm2 : env2.exportModel m fixedConfig =
              Except.error e := by rw [← he]; exact hm
          rw [runScript_found_exportFail env1 m e h1 hload hm,
              runScript_found_exportFail env2 m e h2 hload2 hm2]
      | ok r =>
          have hload2 : env2.load (LoadArg.byPath model_path) =
              Except.ok m := by rw [← hl]; exact hload
          have hm2 : env2.exportModel m fixedConfig =
              Except.ok r := by rw [← he]; exact hm
          rw [runScript_found_ok env1 m r h1 hload hm,
              runScript_found_ok env2 m r h2 hload2 hm2]

/-- Witness for C9 at the concrete environments `envTrue` and `envTrue2`. -/
theorem rerun_same_behavior_witness :
    runScript envTrue = runScript envTrue2 ∧
    loadCalls (runScript envTrue).1 = [LoadArg.byPath model_path] :=
  rerun_same_behavior envTrue envTrue2 (by decide) rfl rfl rfl

/-- C10: in every run the very first action is the change of working
directory to the fixed absolute directory — before the existence check and
before any load or export call — and it is the only such change in the run,
so every later filesystem-relative effect resolves against that
directory. -/
theorem chdir_first (env : Env) :
    ((runScript env).1).head? = some (Event.chdir workDir) ∧
    ((runScript env).1).filter Event.isChdir = [Event.chdir workDir] := by
  cases hexi : env.pathExists model_path with
  | false =>
      cases hl : env.load (LoadArg.byIdent modelIdent) with
      | error e =>
          rw [runScript_missing_loadFail env e hexi hl]; exact ⟨rfl, rfl⟩
      | ok m =>
          cases hm : env.exportModel m fixedConfig with
          | error e =>
              rw [runScript_missing_exportFail env m e hexi hl hm]
              exact ⟨rfl, rfl⟩
          | ok r =>
              rw [runScript_missing_ok env m r hexi hl hm]
              exact ⟨rfl, rfl⟩
  | true =>
      cases hl : env.load (LoadArg.byPath model_path) with
      | error e =>
          rw [runScript_found_loadFail env e hexi hl]; exact ⟨rfl, rfl⟩
      | ok m =>
          cases hm : env.exportModel m fixedConfig with
          | error e =>
              rw [runScript_found_exportFail env m e hexi hl hm]
              exact ⟨rfl, rfl⟩
          | ok r =>
              rw [runScript_found_ok env m r hexi hl hm]
              exact ⟨rfl, rfl⟩

end ExportModel
